import Mathlib

/-!
Verification development for the rust-fmod binding (files `src/sound.rs`,
`src/channel.rs`).  The native FMOD engine is an external collaborator: every
wrapper method forwards one C call and maps the returned result code.  We model
the engine as an explicit oracle (a structure of response functions), native
pointers as `Option Nat` (`none` is the null pointer), and each wrapper method
as a pure Lean function from the oracle and the wrapper state to its result,
its successor state and the list of engine calls it issued.

`Sound::save_to_wav` is modelled over a `WavEnv` record holding the responses
of every engine and file-system interaction the function performs, in program
order, and returns the exact byte list written to the file.
-/

/-- Result code of an FMOD call (`fmod::Result`): `ok` is `fmod::Ok`, every
other enum value is carried as an error code. -/
inductive FmodResult where
  | ok
  | err (code : Nat)
deriving DecidableEq, Repr

/-- Error value returned by `save_to_wav` (`Err(format!("{}", e))`): either a
formatted engine result code or a formatted file-system error. -/
inductive SaveErr where
  | engine (code : Nat)
  | fsError
deriving DecidableEq, Repr

/-- Outcome of `save_to_wav`: `ok file` is `Ok(true)` together with the byte
list written to the file; `err` is an early `return Err(..)`; `panicked` is a
task failure from one of the `.unwrap()` calls on a failed buffered write. -/
inductive SaveResult where
  | ok (file : List Nat)
  | err (e : SaveErr)
  | panicked
deriving DecidableEq, Repr

/-- Little-endian serialization of a 16-bit value (`write_le_u16`). -/
def le16 (n : Nat) : List Nat := [n % 256, n / 256 % 256]

/-- Little-endian serialization of a 32-bit value (`write_le_u32` /
`write_le_i32`, whose i32 argument has the same byte image as its value
modulo 2^32). -/
def le32 (n : Nat) : List Nat :=
  [n % 256, n / 256 % 256, n / 65536 % 256, n / 16777216 % 256]

/-- `mem::size_of::<RiffChunk>()`: `RiffChunk` is `{ id: [c_char, ..4],
size: c_int }`, laid out in declaration order with no padding: 4 + 4 = 8. -/
def sizeOfRiffChunk : Nat := 8

/-- `mem::size_of::<FmtChunk>()`: a `RiffChunk` (8 bytes) followed by
u16, u16, u32, u32, u16, u16 at offsets 8, 10, 12, 16, 20, 22 — no padding,
total 24 bytes. -/
def sizeOfFmtChunk : Nat := 24

/-- The `n_avg_bytes_per_sec` field as computed at src/sound.rs:693:
`rate as u32 * channels as u32 * bits as u32 / 8u32`, i.e. two wrapping
u32 multiplications followed by truncating u32 division. -/
def byteRateField (rate channels bits : Nat) : Nat :=
  ((rate % 4294967296) * (channels % 4294967296) % 4294967296)
    * (bits % 4294967296) % 4294967296 / 8

/-- The `n_block_align` field as computed at src/sound.rs:694:
`1u16 * channels as u16 * bits as u16 / 8u16`, i.e. wrapping u16
multiplications followed by truncating u16 division. -/
def blockAlignField (channels bits : Nat) : Nat :=
  ((1 * (channels % 65536)) % 65536) * (bits % 65536) % 65536 / 8

/-- The 44 header bytes emitted by `save_to_wav` before the payload, exactly
as written at src/sound.rs:717-742: RIFF chunk id, RIFF size
(`size_of::<FmtChunk>() + size_of::<RiffChunk>() + len_bytes`), `WAVE`,
`fmt ` chunk id, fmt size (`size_of::<FmtChunk>() - size_of::<RiffChunk>()`),
format tag 1, channels, rate, byte rate, block align, bits, `data` chunk id,
data size (`len_bytes`). -/
def wavBytes (channels bits rate lenBytes : Nat) : List Nat :=
  [82, 73, 70, 70]
    ++ le32 ((sizeOfFmtChunk + sizeOfRiffChunk + lenBytes) % 4294967296)
    ++ [87, 65, 86, 69]
    ++ [102, 109, 116, 32]
    ++ le32 (sizeOfFmtChunk - sizeOfRiffChunk)
    ++ le16 1
    ++ le16 (channels % 65536)
    ++ le32 (rate % 4294967296)
    ++ le32 (byteRateField rate channels bits)
    ++ le16 (blockAlignField channels bits)
    ++ le16 (bits % 65536)
    ++ [100, 97, 116, 97]
    ++ le32 (lenBytes % 4294967296)

/-- Environment of one `save_to_wav` run: the engine's and file system's
responses to each interaction the function performs, in program order.
`mem1` / `mem2` are the byte sequences readable in process memory starting at
the two pointers `FMOD_Sound_Lock` returns; the locked regions proper are
their prefixes of length `len1` / `len2` (the code reads `len_bytes` bytes
from the first pointer, which may run past the first region). -/
structure WavEnv where
  lengthPcmBytes : Except Nat Nat
  formatResult : FmodResult
  formatChannels : Nat
  formatBits : Nat
  defaultsResult : FmodResult
  defaultsRate : Nat
  createOk : Bool
  writesOk : Bool
  lockResult : FmodResult
  len1 : Nat
  len2 : Nat
  mem1 : List Nat
  mem2 : List Nat
  unlockResult : FmodResult
deriving Repr

/-- First region returned by the lock (`ptr1` with length `len1`). -/
def WavEnv.region1 (env : WavEnv) : List Nat := env.mem1.take env.len1

/-- Second (wrapped) region returned by the lock (`ptr2` with length
`len2`). -/
def WavEnv.region2 (env : WavEnv) : List Nat := env.mem2.take env.len2

/-- `Sound::save_to_wav` (src/sound.rs:664-753).  Control flow of the source:
the PCM-byte length query, the format query and the defaults query each abort
with the formatted engine code on failure; file creation aborts with a
formatted I/O error; every buffered write is `.unwrap()`ed, so a failing write
panics; `FMOD_Sound_Lock` and `FMOD_Sound_Unlock` are invoked but their result
codes are discarded; the payload written is `len_bytes` bytes read from the
first lock pointer (`slice::raw::buf_as_slice(ptr1, len_bytes, ..)`), and the
second pointer is never read.  On success the function returns `Ok(true)`. -/
def saveToWav (env : WavEnv) : SaveResult :=
  match env.lengthPcmBytes with
  | .error e => .err (.engine e)
  | .ok lenBytes =>
    match env.formatResult with
    | .err e => .err (.engine e)
    | .ok =>
      match env.defaultsResult with
      | .err e => .err (.engine e)
      | .ok =>
        if !env.createOk then .err .fsError
        else if !env.writesOk then .panicked
        else
          .ok (wavBytes env.formatChannels env.formatBits env.defaultsRate
                lenBytes ++ env.mem1.take lenBytes)

/-- One call into the native engine, tagged with the pointer the wrapper
passed (`none` is the null pointer). -/
inductive EngineCall where
  | soundRelease (p : Option Nat)
  | soundGetLength (p : Option Nat)
  | soundGetFormat (p : Option Nat)
  | soundLock (p : Option Nat)
  | soundUnlock (p : Option Nat)
deriving DecidableEq, Repr

/-- The pointer argument of an engine call. -/
def EngineCall.ptr : EngineCall → Option Nat
  | .soundRelease p => p
  | .soundGetLength p => p
  | .soundGetFormat p => p
  | .soundLock p => p
  | .soundUnlock p => p

/-- Whether a call is `FMOD_Sound_Release`. -/
def EngineCall.isRelease : EngineCall → Bool
  | .soundRelease _ => true
  | _ => false

/-- Oracle for the native engine: the result it returns to each C call a
`Sound` wrapper method can issue, as a function of the pointer it is handed
(so a null pointer can be answered with an invalid-handle error code, as the
real engine does). -/
structure Engine where
  releaseResult : Option Nat → FmodResult
  getLengthResult : Option Nat → FmodResult × Nat
  getFormatResult : Option Nat → FmodResult × Nat × Nat
  lockResult : Option Nat → FmodResult × List Nat × List Nat
  unlockResult : Option Nat → FmodResult

/-- State of a `Sound` wrapper (src/sound.rs:151-155): the native pointer
(`none` once nulled) and the `can_be_deleted` ownership flag. -/
structure SoundState where
  sound : Option Nat
  canBeDeleted : Bool
deriving DecidableEq, Repr

/-- `sound::from_ptr` (src/sound.rs:165-167): wraps a pointer obtained from a
traversal or query call with `can_be_deleted: false` (a Borrowed handle). -/
def sound_from_ptr (p : Option Nat) : SoundState :=
  { sound := p, canBeDeleted := false }

/-- `sound::from_ptr_first` (src/sound.rs:169-171): wraps a pointer obtained
from a creation call with `can_be_deleted: true` (an Owning handle). -/
def sound_from_ptr_first (p : Option Nat) : SoundState :=
  { sound := p, canBeDeleted := true }

/-- `Sound::release` (src/sound.rs:193-205): if `can_be_deleted` is set and
the pointer is non-null, call `FMOD_Sound_Release`; on `fmod::Ok` null the
pointer and return `fmod::Ok`, on an error code return it and leave the
pointer untouched; otherwise do nothing and return `fmod::Ok`.  The value is
`(returned result, successor state, engine calls issued)`. -/
def Sound.release (eng : Engine) (s : SoundState) :
    FmodResult × SoundState × List EngineCall :=
  if s.canBeDeleted && s.sound.isSome then
    match eng.releaseResult s.sound with
    | .ok => (.ok, { s with sound := none }, [.soundRelease s.sound])
    | .err c => (.err c, s, [.soundRelease s.sound])
  else
    (.ok, s, [])

/-- `Drop for Sound` (src/sound.rs:177-181): the destructor just calls
`release`, discarding its result. -/
def Sound.drop (eng : Engine) (s : SoundState) :
    SoundState × List EngineCall :=
  ((Sound.release eng s).2.1, (Sound.release eng s).2.2)

/-- `Sound::get_length` (src/sound.rs:368-375): forwards `self.sound` to
`FMOD_Sound_GetLength` unconditionally and maps `fmod::Ok` to `Ok(length)`
and any other code to `Err(code)`. -/
def Sound.get_length (eng : Engine) (s : SoundState) :
    Except Nat Nat × List EngineCall :=
  (match eng.getLengthResult s.sound with
   | (.ok, l) => .ok l
   | (.err c, _) => .error c,
   [.soundGetLength s.sound])

/-- `Sound::get_format` (src/sound.rs:377-387): forwards `self.sound` to
`FMOD_Sound_GetFormat` unconditionally; on `fmod::Ok` returns the channel
count and bit depth the engine filled in. -/
def Sound.get_format (eng : Engine) (s : SoundState) :
    Except Nat (Nat × Nat) × List EngineCall :=
  (match eng.getFormatResult s.sound with
   | (.ok, cb) => .ok cb
   | (.err c, _) => .error c,
   [.soundGetFormat s.sound])

/-- `Sound::lock` (src/sound.rs:591-612): forwards `self.sound` to
`FMOD_Sound_Lock` unconditionally; on `fmod::Ok` returns the two region byte
vectors (`len1` bytes from `ptr1` and `len2` bytes from `ptr2`). -/
def Sound.lock (eng : Engine) (s : SoundState) :
    Except Nat (List Nat × List Nat) × List EngineCall :=
  (match eng.lockResult s.sound with
   | (.ok, r) => .ok r
   | (.err c, _) => .error c,
   [.soundLock s.sound])

/-- `Sound::unlock` (src/sound.rs:614-617): forwards `self.sound` to
`FMOD_Sound_Unlock` unconditionally and returns its result code. -/
def Sound.unlock (eng : Engine) (s : SoundState) :
    FmodResult × List EngineCall :=
  (eng.unlockResult s.sound, [.soundUnlock s.sound])

/-- The operations of the handle model that we run in sequences: `release`,
scope-end `drop`, and the accessor methods embedded above. -/
inductive SoundOp where
  | release
  | drop
  | getLength
  | getFormat
  | lock
  | unlock
deriving DecidableEq, Repr

/-- Whether an operation is an accessor (forwards to the engine without any
ownership action), as opposed to `release` / `drop`. -/
def SoundOp.isAccessor : SoundOp → Bool
  | .release => false
  | .drop => false
  | _ => true

/-- Run one operation on a sound handle, returning the successor state and
the engine calls it issued (results are discarded at this level; the
individual method embeddings above expose them). -/
def runOp (eng : Engine) (op : SoundOp) (s : SoundState) :
    SoundState × List EngineCall :=
  match op with
  | .release => ((Sound.release eng s).2.1, (Sound.release eng s).2.2)
  | .drop => Sound.drop eng s
  | .getLength => (s, (Sound.get_length eng s).2)
  | .getFormat => (s, (Sound.get_format eng s).2)
  | .lock => (s, (Sound.lock eng s).2)
  | .unlock => (s, (Sound.unlock eng s).2)

/-- Run a sequence of operations, concatenating the engine-call traces. -/
def runOps (eng : Engine) : List SoundOp → SoundState → SoundState × List EngineCall
  | [], s => (s, [])
  | op :: rest, s =>
    ((runOps eng rest (runOp eng op s).1).1,
     (runOp eng op s).2 ++ (runOps eng rest (runOp eng op s).1).2)

/-- State of a `Channel` wrapper (src/channel.rs:96-98): just the native
pointer. -/
structure ChannelState where
  channel : Option Nat
deriving DecidableEq, Repr

/-- `Channel::release` (src/channel.rs:107-109): sets the native pointer to
null.  It issues no engine call and returns unit (it cannot fail). -/
def Channel.release (_s : ChannelState) : ChannelState × List EngineCall :=
  ({ channel := none }, [])

/-- `Drop for Channel` (src/channel.rs:100-104): the destructor just calls
`release`. -/
def Channel.drop (s : ChannelState) : ChannelState × List EngineCall :=
  Channel.release s

/-- C9: the emitted `n_avg_bytes_per_sec` field equals
`rate * channels * bits / 8` and the emitted `n_block_align` field equals
`channels * bits / 8`, each evaluated in the field's width (32-bit resp.
16-bit, as the wrapping casts and multiplications of the source prescribe)
with truncating integer division and no rounding. -/
theorem byte_rate_and_block_align_truncating (rate channels bits : Nat) :
    byteRateField rate channels bits = rate * channels * bits % 4294967296 / 8 ∧
    blockAlignField channels bits = channels * bits % 65536 / 8 := by
  constructor
  · unfold byteRateField
    conv_rhs => rw [Nat.mul_mod (rate * channels) bits, Nat.mul_mod rate channels]
  · unfold blockAlignField
    conv_rhs => rw [Nat.mul_mod channels bits]
    simp

/-- C10: `Channel::release` — and the scope-end drop, which just calls it —
issues no engine call; its only effect is to null the wrapper's native
pointer, and it always succeeds (it returns unit and has no failure path). -/
theorem channel_release_only_nulls_pointer (s : ChannelState) :
    Channel.release s = ({ channel := none }, []) ∧
    Channel.drop s = ({ channel := none }, []) :=
  ⟨rfl, rfl⟩

/-- Environment of the spec's P4 scenario: the format query yields 2 channels
and 16 bits, the default rate is 44100, the PCM-byte length is 8 and the lock
returns a single 8-byte region holding `[1, 2, 3, 4, 5, 6, 7, 8]`; every
engine and file-system interaction succeeds. -/
def envP4 : WavEnv :=
  { lengthPcmBytes := .ok 8, formatResult := .ok, formatChannels := 2,
    formatBits := 16, defaultsResult := .ok, defaultsRate := 44100,
    createOk := true, writesOk := true, lockResult := .ok,
    len1 := 8, len2 := 0, mem1 := [1, 2, 3, 4, 5, 6, 7, 8], mem2 := [],
    unlockResult := .ok }

/-- Modelled from the spec: the byte sequence claim C1 (spec property P4)
prescribes for the P4 scenario — `RIFF`, size 44 (= 36 + 8), `WAVE`, `fmt `,
size 16, tag 1, channels 2, rate 44100, byte rate 176400, block align 4,
bits 16, `data`, size 8, then the payload, all little-endian. -/
def claimedWavP4 : List Nat :=
  [82, 73, 70, 70] ++ le32 44 ++ [87, 65, 86, 69]
    ++ [102, 109, 116, 32] ++ le32 16 ++ le16 1 ++ le16 2 ++ le32 44100
    ++ le32 176400 ++ le16 4 ++ le16 16
    ++ [100, 97, 116, 97] ++ le32 8 ++ [1, 2, 3, 4, 5, 6, 7, 8]

/-- The bytes `save_to_wav` actually writes in the P4 scenario. -/
def savedWavP4 : List Nat := wavBytes 2 16 44100 8 ++ [1, 2, 3, 4, 5, 6, 7, 8]

/-- C1: in the P4 scenario the export succeeds and emits `savedWavP4`, which
differs from the byte sequence the claim prescribes in exactly the RIFF size
field (file offsets 4..7): the code writes 40 — `size_of::<FmtChunk>()` (24)
plus `size_of::<RiffChunk>()` (8) plus the payload length (8), omitting the
4 bytes of the `WAVE` type id — where the claim and the WAV format require
44 (= 36 + 8); every byte outside offsets 4..7 matches the claim. -/
theorem save_to_wav_riff_size_off_by_four :
    saveToWav envP4 = .ok savedWavP4 ∧
    savedWavP4.take 4 = claimedWavP4.take 4 ∧
    (savedWavP4.drop 4).take 4 = le32 40 ∧
    (claimedWavP4.drop 4).take 4 = le32 44 ∧
    savedWavP4.drop 8 = claimedWavP4.drop 8 ∧
    savedWavP4 ≠ claimedWavP4 := by
  decide

/-- C8: whenever the PCM-byte length query returns 0 and the format query,
the defaults query, the file creation and the buffered writes all succeed,
`save_to_wav` returns `Ok(true)` and the file written is exactly the 44
header bytes — RIFF, fmt and data headers with an empty data chunk. -/
theorem save_to_wav_zero_length_is_44_bytes (env : WavEnv)
    (hlen : env.lengthPcmBytes = .ok 0)
    (hfmt : env.formatResult = .ok)
    (hdef : env.defaultsResult = .ok)
    (hcreate : env.createOk = true)
    (hwrites : env.writesOk = true) :
    saveToWav env =
      .ok (wavBytes env.formatChannels env.formatBits env.defaultsRate 0) ∧
    (wavBytes env.formatChannels env.formatBits env.defaultsRate 0).length = 44 := by
  constructor
  · simp [saveToWav, hlen, hfmt, hdef, hcreate, hwrites]
  · simp [wavBytes, le16, le32]

/-- Environment of the zero-length fixture: every interaction succeeds and
the length query returns 0. -/
def envZeroLen : WavEnv :=
  { lengthPcmBytes := .ok 0, formatResult := .ok, formatChannels := 2,
    formatBits := 16, defaultsResult := .ok, defaultsRate := 44100,
    createOk := true, writesOk := true, lockResult := .ok,
    len1 := 0, len2 := 0, mem1 := [], mem2 := [],
    unlockResult := .ok }

/-- Witness for C8 at the concrete zero-length fixture `envZeroLen`. -/
theorem save_to_wav_zero_length_is_44_bytes_witness :
    saveToWav envZeroLen = .ok (wavBytes 2 16 44100 0) ∧
    (wavBytes 2 16 44100 0).length = 44 :=
  save_to_wav_zero_length_is_44_bytes envZeroLen rfl rfl rfl rfl rfl

/-- Environment where the lock returns two non-empty regions: a first region
`[1]` (`len1 = 1`), a wrapped second region `[2]` (`len2 = 1`), for a total
payload length of 2; the byte sitting in memory just past the first region
is 9. -/
def envTwoRegions : WavEnv :=
  { lengthPcmBytes := .ok 2, formatResult := .ok, formatChannels := 2,
    formatBits := 16, defaultsResult := .ok, defaultsRate := 44100,
    createOk := true, writesOk := true, lockResult := .ok,
    len1 := 1, len2 := 1, mem1 := [1, 9], mem2 := [2],
    unlockResult := .ok }

/-- C2: when the lock returns a wrapped pair of regions, the payload bytes
written after the data chunk header are `len_bytes` bytes read from the first
pointer only — here `[1, 9]`, running one byte past the locked first region —
and not the claimed concatenation `region1 ++ region2 = [1, 2]`; the second
region's bytes never reach the file (the sibling `Sound::lock` method at
src/sound.rs:591-612 does return both regions, so `save_to_wav`'s single
`buf_as_slice(ptr1, len_bytes, ..)` is a slip). -/
theorem save_to_wav_drops_second_lock_region :
    saveToWav envTwoRegions = .ok (wavBytes 2 16 44100 2 ++ [1, 9]) ∧
    envTwoRegions.region1 ++ envTwoRegions.region2 = [1, 2] ∧
    wavBytes 2 16 44100 2 ++ [1, 9] ≠
      wavBytes 2 16 44100 2 ++ (envTwoRegions.region1 ++ envTwoRegions.region2) := by
  decide

/-- Environment where `FMOD_Sound_Lock` and `FMOD_Sound_Unlock` both fail
with error code 30 while every other interaction succeeds. -/
def envLockFails : WavEnv :=
  { lengthPcmBytes := .ok 4, formatResult := .ok, formatChannels := 2,
    formatBits := 16, defaultsResult := .ok, defaultsRate := 44100,
    createOk := true, writesOk := true, lockResult := .err 30,
    len1 := 0, len2 := 0, mem1 := [7, 7, 7, 7], mem2 := [],
    unlockResult := .err 30 }

/-- Environment where a buffered file write fails while every engine
interaction succeeds. -/
def envWriteFails : WavEnv :=
  { lengthPcmBytes := .ok 4, formatResult := .ok, formatChannels := 2,
    formatBits := 16, defaultsResult := .ok, defaultsRate := 44100,
    createOk := true, writesOk := false, lockResult := .ok,
    len1 := 4, len2 := 0, mem1 := [7, 7, 7, 7], mem2 := [],
    unlockResult := .ok }

/-- C3: `save_to_wav` discards the result codes of `FMOD_Sound_Lock` and
`FMOD_Sound_Unlock` (src/sound.rs:744 and 750) — with both calls failing
(code 30) the export still returns `Ok(true)` instead of surfacing the
engine error — and a failing file-system write makes the `.unwrap()` calls
panic instead of returning an I/O error.  (The length, format and defaults
queries and the file creation do surface their failures, and the sibling
`Sound::lock` method checks the very same engine call it ignores here.) -/
theorem save_to_wav_ignores_lock_unlock_failures :
    saveToWav envLockFails = .ok (wavBytes 2 16 44100 4 ++ [7, 7, 7, 7]) ∧
    envLockFails.lockResult = .err 30 ∧
    envLockFails.unlockResult = .err 30 ∧
    saveToWav envWriteFails = .panicked := by
  decide

/-- Engine oracle that answers every call made with the null pointer with
error code 30 (the engine's invalid-handle error) and every call made with a
live pointer with success. -/
def engNullErr : Engine :=
  { releaseResult := fun p => if p.isSome then .ok else .err 30,
    getLengthResult := fun p => if p.isSome then (.ok, 8) else (.err 30, 0),
    getFormatResult := fun p => if p.isSome then (.ok, 2, 16) else (.err 30, 0, 0),
    lockResult := fun p => if p.isSome then (.ok, [], []) else (.err 30, [], []),
    unlockResult := fun p => if p.isSome then .ok else .err 30 }

/-- A dead handle: an Owning handle whose release succeeded, leaving the
native pointer null. -/
def deadSound : SoundState :=
  (Sound.release engNullErr (sound_from_ptr_first (some 1))).2.1

/-- C4 counterexample: `get_length` invoked on a handle whose resource has
been released still performs an engine call — `FMOD_Sound_GetLength` with the
null pointer — refuting the claim that a dead handle performs no engine call;
the error it reports is the engine's own code (30 here), and the binding's
error enum `fmod::Result` has no `UseAfterRelease` value at all. -/
theorem get_length_on_dead_handle_calls_engine :
    deadSound.sound = none ∧
    (Sound.get_length engNullErr deadSound).2 = [.soundGetLength none] ∧
    (Sound.get_length engNullErr deadSound).2 ≠ [] ∧
    (Sound.get_length engNullErr deadSound).1 = .error 30 :=
  ⟨rfl, rfl, by decide, rfl⟩

/-- C4 amended: every accessor operation, on every handle state — a dead one
included — performs exactly one engine call and passes the wrapper's current
pointer (null after a successful release); the wrapper has no local liveness
check, so the outcome is whatever the engine returns for that pointer, not a
local `UseAfterRelease` error. -/
theorem accessor_always_forwards_to_engine (eng : Engine) (s : SoundState)
    (op : SoundOp) (h : op.isAccessor = true) :
    (runOp eng op s).2.length = 1 ∧
    ((runOp eng op s).2.all fun c => c.ptr == s.sound) = true := by
  cases op <;>
    simp_all [runOp, SoundOp.isAccessor, Sound.get_length, Sound.get_format,
      Sound.lock, Sound.unlock, EngineCall.ptr]

/-- Witness for the amended C4 at a concrete accessor on the dead handle. -/
theorem accessor_always_forwards_to_engine_witness :
    (runOp engNullErr SoundOp.getFormat deadSound).2.length = 1 ∧
    ((runOp engNullErr SoundOp.getFormat deadSound).2.all
      fun c => c.ptr == deadSound.sound) = true :=
  accessor_always_forwards_to_engine engNullErr deadSound SoundOp.getFormat rfl

/-- Engine oracle whose release call always fails with error code 70. -/
def engReleaseFails : Engine :=
  { releaseResult := fun _ => .err 70,
    getLengthResult := fun _ => (.ok, 8),
    getFormatResult := fun _ => (.ok, 2, 16),
    lockResult := fun _ => (.ok, [], []),
    unlockResult := fun _ => .ok }

/-- C5 counterexample: with the engine failing the release (code 70), an
Owning handle's release reports the failure but does NOT mark the handle
dead — the state, pointer included, is unchanged — and the scope-end drop
then issues a second `FMOD_Sound_Release` for the same identifier, refuting
the claim that no further release ever reaches the engine. -/
theorem release_failure_leaves_handle_live :
    (Sound.release engReleaseFails (sound_from_ptr_first (some 1))).1 = .err 70 ∧
    (Sound.release engReleaseFails (sound_from_ptr_first (some 1))).2.1 =
      sound_from_ptr_first (some 1) ∧
    (Sound.drop engReleaseFails
        (Sound.release engReleaseFails (sound_from_ptr_first (some 1))).2.1).2 =
      [.soundRelease (some 1)] := by
  decide

/-- C5 amended: when the engine-level release fails, the error code is
returned to the caller, but the handle is NOT marked dead: the state is
returned unchanged, the pointer still set, so the scope-end drop (or any
later release) issues the engine release again with the same pointer. -/
theorem release_failure_reported_but_handle_stays_live (eng : Engine)
    (s : SoundState) (c : Nat)
    (town : s.canBeDeleted = true) (hlive : s.sound.isSome = true)
    (hfail : eng.releaseResult s.sound = .err c) :
    Sound.release eng s = (.err c, s, [.soundRelease s.sound]) ∧
    (Sound.drop eng s).2 = [.soundRelease s.sound] := by
  have hcond : (s.canBeDeleted && s.sound.isSome) = true := by
    rw [town, hlive]
    rfl
  constructor
  · simp [Sound.release, hcond, hfail]
  · simp [Sound.drop, Sound.release, hcond, hfail]

/-- Witness for the amended C5 at a concrete failing engine and live Owning
handle. -/
theorem release_failure_reported_but_handle_stays_live_witness :
    Sound.release engReleaseFails (sound_from_ptr_first (some 2)) =
      (.err 70, sound_from_ptr_first (some 2), [.soundRelease (some 2)]) ∧
    (Sound.drop engReleaseFails (sound_from_ptr_first (some 2))).2 =
      [.soundRelease (some 2)] :=
  release_failure_reported_but_handle_stays_live engReleaseFails
    (sound_from_ptr_first (some 2)) 70 rfl rfl rfl

/-- C6 counterexample: with the engine failing the release, calling release
twice in succession on an Owning handle issues the engine release call both
times, refuting the claim that only the first call reaches the engine. -/
theorem double_release_reaches_engine_twice :
    (Sound.release engReleaseFails (sound_from_ptr_first (some 3))).2.2 =
      [.soundRelease (some 3)] ∧
    (Sound.release engReleaseFails
        (Sound.release engReleaseFails (sound_from_ptr_first (some 3))).2.1).2.2 =
      [.soundRelease (some 3)] := by
  decide

/-- C6 amended: whenever a release returns `fmod::Ok` — the engine release
succeeded, or the handle was Borrowed or already dead so no engine call was
made — a second release on the resulting state is a no-op: it returns
`fmod::Ok`, leaves the state unchanged and issues no engine call.  Only when
the engine itself fails the release does the handle stay live and a further
engine release occur (the C5 correction). -/
theorem release_idempotent_after_success (eng : Engine) (s : SoundState)
    (h : (Sound.release eng s).1 = .ok) :
    Sound.release eng ((Sound.release eng s).2.1) =
      (.ok, (Sound.release eng s).2.1, []) := by
  by_cases hb : (s.canBeDeleted && s.sound.isSome) = true
  · rcases hr : eng.releaseResult s.sound with _ | c
    · simp [Sound.release, hb, hr]
    · exfalso
      rw [Sound.release] at h
      simp [hb, hr] at h
  · simp [Sound.release, hb]

/-- Engine oracle for which every call succeeds. -/
def engAllOk : Engine :=
  { releaseResult := fun _ => .ok,
    getLengthResult := fun _ => (.ok, 8),
    getFormatResult := fun _ => (.ok, 2, 16),
    lockResult := fun _ => (.ok, [], []),
    unlockResult := fun _ => .ok }

/-- Witness for the amended C6: after a successful release of a fresh Owning
handle, a second release is a no-op. -/
theorem release_idempotent_after_success_witness :
    Sound.release engAllOk
        ((Sound.release engAllOk (sound_from_ptr_first (some 4))).2.1) =
      (.ok, (Sound.release engAllOk (sound_from_ptr_first (some 4))).2.1, []) :=
  release_idempotent_after_success engAllOk (sound_from_ptr_first (some 4)) rfl

/-- Helper: on a handle whose `can_be_deleted` flag is false, one operation
keeps the flag false and issues no `FMOD_Sound_Release` call (release and
drop short-circuit on the flag; accessors issue only their own call; no
method of the source ever writes `can_be_deleted` after construction). -/
theorem runOp_borrowed_no_release (eng : Engine) (op : SoundOp)
    (s : SoundState) (h : s.canBeDeleted = false) :
    (runOp eng op s).1.canBeDeleted = false ∧
    ((runOp eng op s).2.all fun c => !c.isRelease) = true := by
  cases op <;>
    simp [runOp, Sound.drop, Sound.release, Sound.get_length, Sound.get_format,
      Sound.lock, Sound.unlock, h, EngineCall.isRelease]

/-- Helper: lifting `runOp_borrowed_no_release` to operation sequences. -/
theorem runOps_borrowed_no_release (eng : Engine) (ops : List SoundOp) :
    ∀ s : SoundState, s.canBeDeleted = false →
      ((runOps eng ops s).2.all fun c => !c.isRelease) = true := by
  induction ops with
  | nil => intro s _; simp [runOps]
  | cons op rest ih =>
    intro s h
    have h1 := runOp_borrowed_no_release eng op s h
    simp [runOps, List.all_append, h1.2, ih _ h1.1]

/-- C7: a Borrowed handle — one built by `from_ptr`, which sets
`can_be_deleted` to false — never triggers `FMOD_Sound_Release`: over every
engine oracle and every sequence of operations (release, scope-end drop and
the accessors), the engine-call trace contains no release call. -/
theorem borrowed_handle_never_releases (eng : Engine) (ops : List SoundOp)
    (p : Option Nat) :
    ((runOps eng ops (sound_from_ptr p)).2.all fun c => !c.isRelease) = true :=
  runOps_borrowed_no_release eng ops (sound_from_ptr p) rfl
